import Mathlib

/-!
Verification of the simulation core of "the-tower", a 2D platformer.

The definitions below are a shallow embedding of the Python source:
`modules/physics.py`, `modules/block.py`, `modules/entities.py` and
`modules/textureset.py`.  Pygame rectangles are modelled as integer
axis-aligned boxes, elapsed times as exact rationals (`PyRat`), and
Python's truncating `int()` conversion as the explicit truncation
`PyRat.pyInt`.  Collision resolution, the fixed-timestep integrator and
the per-block updates are translated statement by statement from the
source.
-/

set_option maxRecDepth 10000

/-- Exact rational value with a positive denominator, used to model the
real-valued quantities of the Python source (elapsed times, velocity times
time products) at full precision.  Unlike `ℚ` it does not normalise, so all
its operations reduce inside the kernel and concrete program runs can be
settled by `decide`. -/
structure PyRat where
  num : ℤ
  den : ℤ
  den_pos : 0 < den

/-- Denotation of a `PyRat` as a rational number. -/
def PyRat.toRat (q : PyRat) : ℚ := (q.num : ℚ) / (q.den : ℚ)

/-- Embedding of an integer. -/
def PyRat.ofInt (n : ℤ) : PyRat := ⟨n, 1, one_pos⟩

def PyRat.mul (a b : PyRat) : PyRat :=
  ⟨a.num * b.num, a.den * b.den, mul_pos a.den_pos b.den_pos⟩

def PyRat.add (a b : PyRat) : PyRat :=
  ⟨a.num * b.den + b.num * a.den, a.den * b.den, mul_pos a.den_pos b.den_pos⟩

def PyRat.neg (a : PyRat) : PyRat := ⟨-a.num, a.den, a.den_pos⟩

def PyRat.sub (a b : PyRat) : PyRat :=
  ⟨a.num * b.den - b.num * a.den, a.den * b.den, mul_pos a.den_pos b.den_pos⟩

/-- Reciprocal; `inv 0 = 0` (never hit by the embedded code, which only
divides by the positive constant `DISCRETE_TIMESTEP`). -/
def PyRat.inv (a : PyRat) : PyRat :=
  if h : 0 < a.num then ⟨a.den, a.num, h⟩
  else if h' : a.num < 0 then ⟨-a.den, -a.num, by omega⟩
  else ⟨0, 1, one_pos⟩

def PyRat.div (a b : PyRat) : PyRat := a.mul b.inv

/-- Truncation toward zero, the behaviour of Python's `int()` conversion
applied to a real value. -/
def PyRat.pyInt (q : PyRat) : ℤ := q.num.tdiv q.den

/-- Floor, the rounding used by Python's `%` operator on floats with a
positive modulus. -/
def PyRat.floor (q : PyRat) : ℤ := q.num.fdiv q.den

/-- Integer axis-aligned box, modelling `pygame.Rect(x, y, w, h)`. -/
structure Rect where
  x : ℤ
  y : ℤ
  w : ℤ
  h : ℤ
deriving DecidableEq

def Rect.left (r : Rect) : ℤ := r.x

def Rect.right (r : Rect) : ℤ := r.x + r.w

def Rect.top (r : Rect) : ℤ := r.y

def Rect.bottom (r : Rect) : ℤ := r.y + r.h

/-- Horizontal center, `rect.centerx` in pygame (integer division). -/
def Rect.centerx (r : Rect) : ℤ := r.x + r.w / 2

/-- Vertical center, `rect.centery` in pygame (integer division). -/
def Rect.centery (r : Rect) : ℤ := r.y + r.h / 2

/-- Assigning `rect.left`, which moves the box keeping its size. -/
def Rect.set_left (r : Rect) (v : ℤ) : Rect := { r with x := v }

/-- Assigning `rect.right`, which moves the box keeping its size. -/
def Rect.set_right (r : Rect) (v : ℤ) : Rect := { r with x := v - r.w }

/-- Assigning `rect.top`, which moves the box keeping its size. -/
def Rect.set_top (r : Rect) (v : ℤ) : Rect := { r with y := v }

/-- Assigning `rect.bottom`, which moves the box keeping its size. -/
def Rect.set_bottom (r : Rect) (v : ℤ) : Rect := { r with y := v - r.h }

/-- Strict overlap of two boxes, the test behind `Rect.colliderect` and
`pygame.sprite.spritecollide`. -/
def Rect.overlaps (a b : Rect) : Prop :=
  a.left < b.right ∧ b.left < a.right ∧ a.top < b.bottom ∧ b.top < a.bottom

instance (a b : Rect) : Decidable (a.overlaps b) := by
  unfold Rect.overlaps; exact inferInstance

/-- Boolean form of `Rect.overlaps`, as `pygame.Rect.colliderect` returns. -/
def Rect.colliderect (a b : Rect) : Bool := decide (a.overlaps b)

/-- Point membership `pygame.Rect.collidepoint`: the left and top edges are
inside, the right and bottom edges are outside. -/
def Rect.collidepoint (r : Rect) (px qy : ℤ) : Bool :=
  decide (r.left ≤ px ∧ px < r.right ∧ r.top ≤ qy ∧ qy < r.bottom)

/-- Finite-state machine states of `modules/entitystate.py`. -/
inductive EntityState where
  | IDLE | WALKING | JUMPING | HANGING | CLIMBING
deriving DecidableEq

/-- Facing direction of an entity. -/
inductive Direction where
  | LEFT | RIGHT
deriving DecidableEq

def Direction.get_reverse : Direction → Direction
  | .LEFT => .RIGHT
  | .RIGHT => .LEFT

/-- Dynamic simulation actor (`modules/entities.py`): live box, velocity in
integer units per second, facing direction and FSM state. -/
structure Entity where
  rect : Rect
  x_velocity : ℤ
  y_velocity : ℤ
  direction : Direction
  state : EntityState
deriving DecidableEq

/-- Positioned tile instance with its live hitbox and hazard flag
(`modules/block.py`, `Block.is_spike`). -/
structure Block where
  rect : Rect
  is_spike : Bool
deriving DecidableEq

/-- The part of the tile map read by the physics component: the collideable
terrain group and the map bounding width (`map.rect.width`). -/
structure GameMap where
  collideable_terrain : List Block
  width : ℤ
deriving DecidableEq

/-- Snapshot of the held keys sampled by `pg.key.get_pressed()`. -/
structure Keys where
  left : Bool
  right : Bool
  up : Bool
  down : Bool
  space : Bool
deriving DecidableEq

/-! Side-detection helpers of `modules/physics.py`, lines 233-246. -/

/-- `is_colliding_from_below(entity, colliding_sprite)`. -/
def is_colliding_from_below (e : Entity) (b : Block) : Bool :=
  decide (b.rect.top < e.rect.top ∧ e.rect.top < b.rect.bottom)

/-- `is_colliding_from_above(entity, colliding_sprite)`. -/
def is_colliding_from_above (e : Entity) (b : Block) : Bool :=
  decide (b.rect.top < e.rect.bottom ∧ e.rect.bottom < b.rect.bottom)

/-- `is_colliding_from_right(entity, colliding_sprite)`. -/
def is_colliding_from_right (e : Entity) (b : Block) : Bool :=
  decide (b.rect.left < e.rect.left ∧ e.rect.left < b.rect.right)

/-- `is_colliding_from_left(entity, colliding_sprite)`. -/
def is_colliding_from_left (e : Entity) (b : Block) : Bool :=
  decide (b.rect.left < e.rect.right ∧ e.rect.right < b.rect.right)

/-! ## UserControlComponent (`modules/physics.py`, lines 6-98) -/

def ZERO_VELOCITY : ℤ := 0

def WALK_LEFT_VELOCITY : ℤ := -180

def WALK_RIGHT_VELOCITY : ℤ := 180

def JUMP_VELOCITY : ℤ := -750

/-- `UserControlComponent.handle_idle_entity` (lines 37-51): zero both
velocities, then react to the Left, Right and Space keys in that order. -/
def UserControlComponent.handle_idle_entity (e : Entity) (k : Keys) : Entity :=
  let e := { e with x_velocity := ZERO_VELOCITY, y_velocity := ZERO_VELOCITY }
  let e := if k.left then
      { e with state := EntityState.WALKING, direction := Direction.LEFT,
               x_velocity := WALK_LEFT_VELOCITY } else e
  let e := if k.right then
      { e with state := EntityState.WALKING, direction := Direction.RIGHT,
               x_velocity := WALK_RIGHT_VELOCITY } else e
  if k.space then
    { e with state := EntityState.JUMPING, y_velocity := JUMP_VELOCITY } else e

/-- `UserControlComponent.handle_walking_entity` (lines 53-66). -/
def UserControlComponent.handle_walking_entity (e : Entity) (k : Keys) : Entity :=
  let e := if k.left then
      { e with direction := Direction.LEFT, x_velocity := WALK_LEFT_VELOCITY } else e
  let e := if k.right then
      { e with direction := Direction.RIGHT, x_velocity := WALK_RIGHT_VELOCITY } else e
  let e := if !(k.left || k.right) then
      { e with state := EntityState.IDLE, x_velocity := ZERO_VELOCITY } else e
  if k.space then
    { e with state := EntityState.JUMPING, y_velocity := JUMP_VELOCITY } else e

/-! ## PhysicsComponent (`modules/physics.py`, lines 125-208) -/

def GRAVITY : PyRat := PyRat.ofInt 60

def DISCRETE_TIMESTEP : PyRat := ⟨1, 60, by norm_num⟩

/-- One iteration of the `for colliding_sprite in colliding_sprites` loop of
`handle_y_collisions` (lines 172-181); the Bool accumulator records whether a
from-above ("landing") contact has occurred. -/
def handle_y_step (acc : Entity × Bool) (b : Block) : Entity × Bool :=
  let e := acc.1
  let e := if is_colliding_from_below e b then
      { e with rect := e.rect.set_top b.rect.bottom, y_velocity := 0 } else e
  if is_colliding_from_above e b then
    let e := if e.state = EntityState.JUMPING then { e with state := EntityState.IDLE } else e
    ({ e with rect := e.rect.set_bottom b.rect.top, y_velocity := 0 }, true)
  else (e, acc.2)

/-- `PhysicsComponent.handle_y_collisions` (lines 166-185).  The colliding
sprites are collected once, against the entity's box at entry, before the
loop mutates the box; `isJumping` of the source is the negation of the
returned landing flag. -/
def PhysicsComponent.handle_y_collisions (e : Entity) (m : GameMap) : Entity × Bool :=
  let colliding := m.collideable_terrain.filter (fun b => e.rect.colliderect b.rect)
  let r := colliding.foldl handle_y_step (e, false)
  if (r.1.state ≠ EntityState.CLIMBING ∧ r.1.state ≠ EntityState.HANGING) ∧ r.2 = false then
    ({ r.1 with state := EntityState.JUMPING }, r.2)
  else r

/-- One iteration of the loop of `PhysicsComponent.handle_x_collisions`
(lines 192-197): hazardous blocks are skipped entirely. -/
def handle_x_step (e : Entity) (b : Block) : Entity :=
  if b.is_spike then e
  else
    let e := if is_colliding_from_right e b then
        { e with rect := e.rect.set_left b.rect.right } else e
    if is_colliding_from_left e b then
      { e with rect := e.rect.set_right b.rect.left } else e

/-- `PhysicsComponent.handle_x_collisions` (lines 187-197). -/
def PhysicsComponent.handle_x_collisions (e : Entity) (m : GameMap) : Entity :=
  (m.collideable_terrain.filter (fun b => e.rect.colliderect b.rect)).foldl handle_x_step e

/-- `PhysicsComponent.handle_map_boundary_collisions` (lines 199-208).  Note
the `elif`: the right-edge clamp is only reached when the left edge is not
negative. -/
def PhysicsComponent.handle_map_boundary_collisions (e : Entity) (m : GameMap) : Entity :=
  let e := if e.rect.top < 0 then { e with rect := e.rect.set_top 0 } else e
  if e.rect.left < 0 then { e with rect := e.rect.set_left 0 }
  else if e.rect.right > m.width then { e with rect := e.rect.set_right m.width }
  else e

/-- One iteration of the loop of `EnemyPhysicsComponent.handle_x_collisions`
(lines 222-229): no hazard check, direction forced by contact side, and the
horizontal velocity reversed once per colliding sprite. -/
def enemy_handle_x_step (e : Entity) (b : Block) : Entity :=
  let e := if is_colliding_from_right e b then
      { e with rect := e.rect.set_left b.rect.right, direction := Direction.RIGHT } else e
  let e := if is_colliding_from_left e b then
      { e with rect := e.rect.set_right b.rect.left, direction := Direction.LEFT } else e
  { e with x_velocity := -e.x_velocity }

/-- `EnemyPhysicsComponent.handle_x_collisions` (lines 215-229). -/
def EnemyPhysicsComponent.handle_x_collisions (e : Entity) (m : GameMap) : Entity :=
  (m.collideable_terrain.filter (fun b => e.rect.colliderect b.rect)).foldl
    enemy_handle_x_step e

/-- Gravity application guarded by the HANGING/CLIMBING states
(`physics.py` lines 147-149 and 155-157); `g` is the already-scaled
acceleration term fed to `int()`. -/
def with_gravity (g : PyRat) (e : Entity) : Entity :=
  if e.state ≠ EntityState.CLIMBING ∧ e.state ≠ EntityState.HANGING then
    { e with y_velocity := e.y_velocity + g.pyInt }
  else e

/-- `entity.rect.y += d`. -/
def move_y (e : Entity) (d : ℤ) : Entity := { e with rect := { e.rect with y := e.rect.y + d } }

/-- `entity.rect.x += d`. -/
def move_x (e : Entity) (d : ℤ) : Entity := { e with rect := { e.rect with x := e.rect.x + d } }

/-- One full fixed sub-step of `PhysicsComponent.update` (lines 146-153):
gravity, vertical move, vertical resolution, horizontal move, horizontal
resolution.  The Bool is the landing flag of `handle_y_collisions`. -/
def PhysicsComponent.full_step (e : Entity) (m : GameMap) : Entity × Bool :=
  let e1 := with_gravity ((GRAVITY.mul DISCRETE_TIMESTEP).mul (PyRat.ofInt 60)) e
  let e2 := move_y e1 ((PyRat.ofInt e1.y_velocity).mul DISCRETE_TIMESTEP).pyInt
  let r := PhysicsComponent.handle_y_collisions e2 m
  let e3 := move_x r.1 ((PyRat.ofInt r.1.x_velocity).mul DISCRETE_TIMESTEP).pyInt
  (PhysicsComponent.handle_x_collisions e3 m, r.2)

/-- The `for i in range(0, num_full_steps)` loop of `PhysicsComponent.update`;
the Bool accumulates whether any landing contact occurred in any sub-step. -/
def PhysicsComponent.run_full_steps : ℕ → Entity → GameMap → Entity × Bool
  | 0, e, _ => (e, false)
  | n + 1, e, m =>
    let r := PhysicsComponent.full_step e m
    let s := PhysicsComponent.run_full_steps n r.1 m
    (s.1, r.2 || s.2)

/-- `int(delta_time / DISCRETE_TIMESTEP)`, the number of full fixed
sub-steps (line 143); `range` treats a negative count as zero. -/
def num_full_steps (dt : PyRat) : ℕ := (dt.div DISCRETE_TIMESTEP).pyInt.toNat

/-- `delta_time % DISCRETE_TIMESTEP` (line 144), Python's floor-based float
modulus with a positive modulus. -/
def remainder_time (dt : PyRat) : PyRat :=
  dt.sub ((PyRat.ofInt (dt.div DISCRETE_TIMESTEP).floor).mul DISCRETE_TIMESTEP)

/-- The remainder sub-step of `PhysicsComponent.update` (lines 155-162):
gravity and vertical move always happen, but vertical resolution runs only
when the truncated vertical displacement is nonzero.  Returns the entity,
the landing flag, and whether vertical resolution ran. -/
def PhysicsComponent.remainder_step (rem : PyRat) (e : Entity) (m : GameMap) :
    Entity × Bool × Bool :=
  let e2 := with_gravity ((GRAVITY.mul rem).mul (PyRat.ofInt 60)) e
  let dy := ((PyRat.ofInt e2.y_velocity).mul rem).pyInt
  let e3 := move_y e2 dy
  let r2 : Entity × Bool × Bool :=
    if dy ≠ 0 then
      let s := PhysicsComponent.handle_y_collisions e3 m
      (s.1, s.2, true)
    else (e3, false, false)
  let e4 := move_x r2.1 ((PyRat.ofInt r2.1.x_velocity).mul rem).pyInt
  (PhysicsComponent.handle_x_collisions e4 m, r2.2.1, r2.2.2)

/-- Result of one `PhysicsComponent.update` tick, instrumented with whether
any landing (from-above) contact occurred during the tick and whether
vertical collision resolution ran at least once. -/
structure UpdateResult where
  entity : Entity
  landed : Bool
  ranY : Bool
deriving DecidableEq

/-- `PhysicsComponent.update` (lines 134-164): the full fixed sub-steps, the
remainder sub-step, then the map boundary clamp. -/
def PhysicsComponent.update (dt : PyRat) (e : Entity) (m : GameMap) : UpdateResult :=
  let n := num_full_steps dt
  let r := PhysicsComponent.run_full_steps n e m
  let q := PhysicsComponent.remainder_step (remainder_time dt) r.1 m
  { entity := PhysicsComponent.handle_map_boundary_collisions q.1 m
    landed := r.2 || q.2.1
    ranY := decide (1 ≤ n) || q.2.2 }

/-! ## Block variants (`modules/block.py`) -/

/-- `SpikeBlock.update` (lines 40-51): any overlap snaps the player's bottom
to the spike's top, then the LAND_ON_SPIKE message is emitted (the returned
Bool) when a lateral edge of the player lies strictly inside the spike's
horizontal extent and the tops are flush. -/
def SpikeBlock.update (s : Block) (p : Entity) : Entity × Bool :=
  let p1 := if s.rect.colliderect p.rect then { p with rect := p.rect.set_bottom s.rect.top } else p
  (p1, decide ((s.rect.left < p1.rect.left ∧ p1.rect.left < s.rect.right
      ∨ s.rect.left < p1.rect.right ∧ p1.rect.right < s.rect.right)
      ∧ s.rect.top = p1.rect.bottom))

/-- `GatewayBlock.update` (lines 61-68): the SWITCH_LEVEL event (the returned
Bool) is posted when the player's rect contains the gateway's center point. -/
def GatewayBlock.update (gw : Block) (p : Entity) : Bool :=
  p.rect.collidepoint gw.rect.centerx gw.rect.centery

/-- Moving platform (`MovingBlock`, lines 95-120): a box and its fixed speed
`vel` (1 in the constructor). -/
structure MovingBlock where
  rect : Rect
  vel : ℤ
deriving DecidableEq

/-- `MovingBlock.update` (lines 100-120): when the player's feet are flush
with the block's top with a lateral edge strictly inside and the player is
not HANGING/CLIMBING, the block moves by `vel` in the player's facing
direction and the player's x is assigned the block's x; then raw Up (elif
Down) key state shifts the block vertically, pinning the player's bottom to
the block's top. -/
def MovingBlock.update (mb : MovingBlock) (p : Entity) (k : Keys) : MovingBlock × Entity :=
  if (mb.rect.top = p.rect.bottom
      ∧ (mb.rect.left < p.rect.left ∧ p.rect.left < mb.rect.right
         ∨ mb.rect.left < p.rect.right ∧ p.rect.right < mb.rect.right))
      ∧ (p.state ≠ EntityState.HANGING ∧ p.state ≠ EntityState.CLIMBING) then
    let s1 : MovingBlock × Entity :=
      if p.direction = Direction.LEFT then
        let mb1 : MovingBlock := { mb with rect := { mb.rect with x := mb.rect.x - mb.vel } }
        (mb1, { p with rect := { p.rect with x := mb1.rect.x } })
      else (mb, p)
    let s2 : MovingBlock × Entity :=
      if s1.2.direction = Direction.RIGHT then
        let mb1 : MovingBlock := { s1.1 with rect := { s1.1.rect with x := s1.1.rect.x + s1.1.vel } }
        (mb1, { s1.2 with rect := { s1.2.rect with x := mb1.rect.x } })
      else s1
    if k.up then
      let mb1 : MovingBlock := { s2.1 with rect := { s2.1.rect with y := s2.1.rect.y - s2.1.vel } }
      (mb1, { s2.2 with rect := s2.2.rect.set_bottom mb1.rect.top })
    else if k.down then
      let mb1 : MovingBlock := { s2.1 with rect := { s2.1.rect with y := s2.1.rect.y + s2.1.vel } }
      (mb1, { s2.2 with rect := s2.2.rect.set_bottom mb1.rect.top })
    else s2
  else (mb, p)

/-! ## TextureSet (`modules/textureset.py`) -/

/-- `TerrainType`: a texture (identified by its spritesheet file and source
rectangle) together with its hitbox geometry in fractions of a block. -/
structure TerrainType where
  sheet : String
  rx : ℤ
  ry : ℤ
  rw : ℤ
  rh : ℤ
  block_pos_x : ℚ
  block_pos_y : ℚ
  block_width : ℚ
  block_height : ℚ
deriving DecidableEq

def ruby_sheet : String := "assets/textures/environment/animated/ruby.png"

def terrain_sheet : String := "assets/textures/environment/static/terrain.png"

def decorations_sheet : String := "assets/textures/environment/static/decorations.png"

/-- The `textures` dictionary of `TextureSet.__init__` (lines 58-100). -/
def textures : List (String × TerrainType) := [
  ("SPIKES_UPRIGHT", ⟨decorations_sheet, 208, 196, 32, 10, 0, 0.7, 1, 0.3⟩),
  ("ENTRANCE/EXIT", ⟨terrain_sheet, 1584, 464, 32, 28, 0, -0.5, 1, 1.5⟩),
  ("COIN", ⟨ruby_sheet, 0, 0, 15, 16, 0.2, 0.2, 0.6, 0.6⟩),
  ("FALLING_BLOCK", ⟨terrain_sheet, 208, 672, 32, 32, 0, 0, 1, 1⟩),
  ("MOVING_BLOCK", ⟨terrain_sheet, 1424, 656, 32, 32, 0, 0, 1, 1⟩),
  ("LADDER", ⟨decorations_sheet, 184, 16, 32, 32, 0, 0, 1, 1⟩),
  ("PUSHABLE", ⟨decorations_sheet, 209, 113, 14, 15, 0, 0, 1, 1⟩),
  ("CORNER_BOTTOM_LEFT", ⟨terrain_sheet, 160, 720, 32, 32, 0, 0, 1, 1⟩),
  ("CORNER_BOTTOM_RIGHT", ⟨terrain_sheet, 512, 720, 32, 32, 0, 0, 1, 1⟩),
  ("CORNER_TOP_LEFT_1", ⟨terrain_sheet, 160, 448, 32, 32, 0, 0, 1, 1⟩),
  ("CORNER_TOP_LEFT_2", ⟨terrain_sheet, 192, 448, 32, 32, 0, 0, 1, 1⟩),
  ("CORNER_TOP_LEFT_3", ⟨terrain_sheet, 160, 480, 32, 32, 0, 0, 1, 1⟩),
  ("CORNER_TOP_LEFT_4", ⟨terrain_sheet, 192, 480, 32, 32, 0, 0, 1, 1⟩),
  ("CORNER_TOP_RIGHT_1", ⟨terrain_sheet, 480, 448, 32, 32, 0, 0, 1, 1⟩),
  ("CORNER_TOP_RIGHT_2", ⟨terrain_sheet, 512, 448, 32, 32, 0, 0, 1, 1⟩),
  ("CORNER_TOP_RIGHT_3", ⟨terrain_sheet, 480, 480, 32, 32, 0, 0, 1, 1⟩),
  ("CORNER_TOP_RIGHT_4", ⟨terrain_sheet, 512, 480, 32, 32, 0, 0, 1, 1⟩),
  ("WALL_LEFT", ⟨terrain_sheet, 160, 672, 32, 32, 0, 0, 1, 1⟩),
  ("WALL_RIGHT", ⟨terrain_sheet, 512, 672, 32, 32, 0, 0, 1, 1⟩),
  ("CEILING", ⟨terrain_sheet, 240, 448, 32, 32, 0, 0, 1, 1⟩),
  ("FLOOR", ⟨terrain_sheet, 240, 720, 32, 32, 0, 0, 1, 1⟩),
  ("FLOOR_TOP_HALF", ⟨terrain_sheet, 240, 720, 32, 16, 0, 0.48, 1, 0.52⟩),
  ("BG_FILLER", ⟨terrain_sheet, 48, 544, 32, 32, 0, 0, 1, 1⟩),
  ("BG_WALL", ⟨terrain_sheet, 1328, 472, 32, 32, 0, 0, 1, 1⟩),
  ("BG_WALL_BOTTOM_HALF", ⟨terrain_sheet, 1328, 488, 32, 16, 0, 0.48, 1, 0.52⟩),
  ("BG_WINDOW_DOUBLE", ⟨terrain_sheet, 1088, 240, 144, 128, 0, 0, 4.5, 4⟩),
  ("BG_WINDOW_SINGLE", ⟨terrain_sheet, 1472, 96, 65, 64, -0.5, -0.40625, 2, 2⟩),
  ("BG_WINDOW_BARRED", ⟨terrain_sheet, 1552, 119, 32, 42, 0, -0.28125, 1, 1.28125⟩),
  ("BG_SHELF_POTIONS", ⟨decorations_sheet, 16, 64, 32, 64, 0, -1, 1, 2⟩),
  ("BG_SHELF_BOOKS", ⟨decorations_sheet, 16, 144, 32, 64, 0, -1, 1, 2⟩),
  ("BG_SHELF_EMPTY", ⟨decorations_sheet, 64, 144, 32, 64, 0, -1, 1, 2⟩),
  ("BG_BANNER_RED_LARGE_1", ⟨decorations_sheet, 304, 305, 112, 80, -0.25, 0, 3.5, 2.5⟩),
  ("BG_BANNER_RED_LARGE_2", ⟨decorations_sheet, 496, 209, 112, 80, -0.25, 0, 3.5, 2.5⟩)]

/-- The `code_to_texture_dictionary` of `TextureSet.__init__` (lines 103-136). -/
def code_to_texture_dictionary : List (String × String) := [
  ("SP", "SPIKES_UPRIGHT"), ("GW", "ENTRANCE/EXIT"), ("CN", "COIN"),
  ("FB", "FALLING_BLOCK"), ("MB", "MOVING_BLOCK"), ("LB", "LADDER"),
  ("PB", "PUSHABLE"), ("f1", "FLOOR"), ("f2", "FLOOR_TOP_HALF"),
  ("l1", "WALL_LEFT"), ("r1", "WALL_RIGHT"), ("c1", "CEILING"),
  ("bl", "CORNER_BOTTOM_LEFT"), ("br", "CORNER_BOTTOM_RIGHT"),
  ("k1", "CORNER_TOP_LEFT_1"), ("k2", "CORNER_TOP_LEFT_2"),
  ("k3", "CORNER_TOP_LEFT_3"), ("k4", "CORNER_TOP_LEFT_4"),
  ("k5", "CORNER_TOP_RIGHT_1"), ("k6", "CORNER_TOP_RIGHT_2"),
  ("k7", "CORNER_TOP_RIGHT_3"), ("k8", "CORNER_TOP_RIGHT_4"),
  ("xx", "BG_FILLER"), ("wl", "BG_WALL"), ("wb", "BG_WALL_BOTTOM_HALF"),
  ("2w", "BG_WINDOW_DOUBLE"), ("1w", "BG_WINDOW_SINGLE"),
  ("bw", "BG_WINDOW_BARRED"), ("s1", "BG_SHELF_POTIONS"),
  ("s2", "BG_SHELF_BOOKS"), ("s3", "BG_SHELF_EMPTY"),
  ("b1", "BG_BANNER_RED_LARGE_1"), ("b2", "BG_BANNER_RED_LARGE_2")]

/-- `TextureSet.get_texture_from_code` (lines 138-140):
`self.textures[self.code_to_texture_dictionary[code]]`, where a missing key
in either dictionary raises `KeyError` (modelled by `none`). -/
def TextureSet.get_texture_from_code (code : String) : Option TerrainType :=
  (code_to_texture_dictionary.lookup code).bind fun name => textures.lookup name

/-! ## Concrete instances used by the claim-level theorems -/

def c1_gateway : Block := ⟨⟨0, 0, 100, 100⟩, false⟩

def c1_player : Entity := ⟨⟨0, 0, 10, 10⟩, 0, 0, Direction.RIGHT, EntityState.IDLE⟩

def c1w_player : Entity := ⟨⟨45, 45, 10, 10⟩, 0, 0, Direction.RIGHT, EntityState.IDLE⟩

def c2_dt : PyRat := ⟨1, 120, by norm_num⟩

def c2_entity : Entity := ⟨⟨0, 0, 10, 10⟩, 0, 0, Direction.RIGHT, EntityState.IDLE⟩

def c2_map : GameMap := ⟨[], 100⟩

def c2w_dt : PyRat := ⟨1, 60, by norm_num⟩

def c3_dt : PyRat := ⟨1, 40, by norm_num⟩

def c3_entity : Entity := ⟨⟨0, 9, 10, 10⟩, 0, 60, Direction.RIGHT, EntityState.JUMPING⟩

def c3_block : Block := ⟨⟨0, 20, 30, 10⟩, false⟩

def c3_map : GameMap := ⟨[c3_block], 100⟩

def c3w_entity : Entity := ⟨⟨0, 11, 10, 10⟩, 0, 120, Direction.RIGHT, EntityState.JUMPING⟩

def c4_dt : PyRat := ⟨1, 6, by norm_num⟩

def c4_entity : Entity := ⟨⟨0, 0, 10, 10⟩, 0, 0, Direction.RIGHT, EntityState.IDLE⟩

def c4_map : GameMap := ⟨[], 1000⟩

def c4w_dt : PyRat := ⟨1, 40, by norm_num⟩

def c4w_entity : Entity := ⟨⟨10, 0, 10, 10⟩, 100, 0, Direction.RIGHT, EntityState.IDLE⟩

def c5_enemy : Entity := ⟨⟨25, 0, 10, 10⟩, 90, 0, Direction.RIGHT, EntityState.WALKING⟩

def c5_spike : Block := ⟨⟨30, 0, 20, 10⟩, true⟩

def c5_map : GameMap := ⟨[c5_spike], 1000⟩

def c6_entity : Entity := ⟨⟨-5, 0, 110, 10⟩, 0, 0, Direction.RIGHT, EntityState.IDLE⟩

def c6_map : GameMap := ⟨[], 100⟩

def c6w_entity : Entity := ⟨⟨-3, -2, 10, 10⟩, 0, 0, Direction.RIGHT, EntityState.IDLE⟩

def c6w_entity' : Entity := ⟨⟨95, 5, 10, 10⟩, 0, 0, Direction.RIGHT, EntityState.IDLE⟩

def c7_block : MovingBlock := ⟨⟨20, 30, 25, 10⟩, 1⟩

def c7_player : Entity := ⟨⟨30, 20, 10, 10⟩, 180, 0, Direction.RIGHT, EntityState.IDLE⟩

def c7_keys : Keys := ⟨false, false, false, false, false⟩

def c7w_keys : Keys := ⟨false, false, true, false, false⟩

def c8_keys : Keys := ⟨true, true, false, false, false⟩

def c8_entity : Entity := ⟨⟨0, 0, 20, 30⟩, 0, 0, Direction.LEFT, EntityState.IDLE⟩

def c10_spike : Block := ⟨⟨30, 40, 20, 10⟩, true⟩

def c10_player : Entity := ⟨⟨35, 35, 10, 10⟩, 0, 0, Direction.RIGHT, EntityState.JUMPING⟩

/-! ## Bridging lemmas between `PyRat` and `ℚ` -/

theorem PyRat.den_cast_pos (q : PyRat) : (0 : ℚ) < (q.den : ℚ) := by
  exact_mod_cast q.den_pos

theorem PyRat.toRat_mul (a b : PyRat) : (a.mul b).toRat = a.toRat * b.toRat := by
  unfold PyRat.toRat PyRat.mul
  push_cast
  rw [div_mul_div_comm]

theorem PyRat.toRat_sub (a b : PyRat) : (a.sub b).toRat = a.toRat - b.toRat := by
  have ha := a.den_cast_pos
  have hb := b.den_cast_pos
  unfold PyRat.toRat PyRat.sub
  push_cast
  field_simp
  ring

theorem PyRat.toRat_ofInt (n : ℤ) : (PyRat.ofInt n).toRat = (n : ℚ) := by
  simp [PyRat.toRat, PyRat.ofInt]

theorem PyRat.toRat_neg (q : PyRat) : q.neg.toRat = -q.toRat := by
  unfold PyRat.toRat PyRat.neg
  push_cast
  rw [neg_div]

theorem PyRat.pyInt_of_neg (q : PyRat) : q.neg.pyInt = -q.pyInt := by
  simp [PyRat.pyInt, PyRat.neg]

theorem PyRat.toRat_nonneg (q : PyRat) : 0 ≤ q.toRat ↔ 0 ≤ q.num := by
  unfold PyRat.toRat
  rw [le_div_iff₀ q.den_cast_pos, zero_mul]
  exact_mod_cast Iff.rfl

theorem PyRat.floor_eq (q : PyRat) : q.floor = ⌊q.toRat⌋ := by
  have hd := q.den_cast_pos
  have he : q.floor = q.num / q.den := Int.fdiv_eq_ediv q.num (le_of_lt q.den_pos)
  have h1 : q.den * (q.num / q.den) + q.num % q.den = q.num := Int.ediv_add_emod _ _
  have h2 : 0 ≤ q.num % q.den := Int.emod_nonneg _ (by have := q.den_pos; omega)
  have h3 : q.num % q.den < q.den := Int.emod_lt_of_pos _ q.den_pos
  have h4 : (q.num / q.den) * q.den ≤ q.num := by nlinarith
  have h5 : q.num < (q.num / q.den + 1) * q.den := by nlinarith
  rw [he]
  symm
  rw [Int.floor_eq_iff]
  unfold PyRat.toRat
  constructor
  · rw [le_div_iff₀ hd]
    exact_mod_cast h4
  · rw [div_lt_iff₀ hd]
    exact_mod_cast h5

theorem PyRat.pyInt_eq_floor (q : PyRat) (h : 0 ≤ q.num) : q.pyInt = ⌊q.toRat⌋ := by
  have h1 : q.pyInt = q.num / q.den :=
    Int.tdiv_eq_ediv h (le_of_lt q.den_pos)
  have h2 : q.floor = q.num / q.den := Int.fdiv_eq_ediv q.num (le_of_lt q.den_pos)
  rw [h1, ← h2, q.floor_eq]

theorem PyRat.pyInt_bounds (q : PyRat) :
    q.toRat - 1 < (q.pyInt : ℚ) ∧ (q.pyInt : ℚ) < q.toRat + 1 := by
  rcases le_or_lt 0 q.num with h | h
  · rw [q.pyInt_eq_floor h]
    refine ⟨Int.sub_one_lt_floor _, lt_of_le_of_lt (Int.floor_le _) (by linarith)⟩
  · have h0 : 0 ≤ q.neg.num := by simp [PyRat.neg]; omega
    have hb1 : q.neg.toRat - 1 < (q.neg.pyInt : ℚ) := by
      rw [q.neg.pyInt_eq_floor h0]
      exact Int.sub_one_lt_floor _
    have hb2 : (q.neg.pyInt : ℚ) < q.neg.toRat + 1 := by
      rw [q.neg.pyInt_eq_floor h0]
      exact lt_of_le_of_lt (Int.floor_le _) (by linarith)
    rw [q.toRat_neg, q.pyInt_of_neg] at hb1 hb2
    push_cast at hb1 hb2
    constructor <;> linarith

theorem PyRat.pyInt_mono_nonneg {a b : PyRat} (ha : 0 ≤ a.num) (h : a.toRat ≤ b.toRat) :
    a.pyInt ≤ b.pyInt := by
  have ha' : (0 : ℚ) ≤ a.toRat := (a.toRat_nonneg).mpr ha
  have hb : 0 ≤ b.num := (b.toRat_nonneg).mp (le_trans ha' h)
  rw [a.pyInt_eq_floor ha, b.pyInt_eq_floor hb]
  exact Int.floor_mono h

theorem PyRat.pyInt_mono {a b : PyRat} (h : a.toRat ≤ b.toRat) : a.pyInt ≤ b.pyInt := by
  rcases le_or_lt 0 a.num with ha | ha
  · exact PyRat.pyInt_mono_nonneg ha h
  · rcases le_or_lt 0 b.num with hb | hb
    · have h1 : a.pyInt ≤ 0 := by
        have h2 : 0 ≤ a.neg.pyInt :=
          Int.tdiv_nonneg (by simp [PyRat.neg]; omega) (le_of_lt a.den_pos)
        have h3 := a.pyInt_of_neg
        omega
      have h2 : 0 ≤ b.pyInt := Int.tdiv_nonneg hb (le_of_lt b.den_pos)
      omega
    · have h0 : 0 ≤ b.neg.num := by simp [PyRat.neg]; omega
      have h' : b.neg.toRat ≤ a.neg.toRat := by
        rw [a.toRat_neg, b.toRat_neg]; linarith
      have := PyRat.pyInt_mono_nonneg h0 h'
      rw [a.pyInt_of_neg, b.pyInt_of_neg] at this
      omega

/-! ## Small facts about box-edge assignment -/

theorem Rect.set_bottom_bottom (r : Rect) (v : ℤ) : (r.set_bottom v).bottom = v := by
  simp [Rect.set_bottom, Rect.bottom]

theorem Rect.set_right_right (r : Rect) (v : ℤ) : (r.set_right v).right = v := by
  simp [Rect.set_right, Rect.right]

/-! ## Which fields each physics phase can touch -/

theorem with_gravity_state (g : PyRat) (e : Entity) : (with_gravity g e).state = e.state := by
  unfold with_gravity; split <;> rfl

theorem with_gravity_rect (g : PyRat) (e : Entity) : (with_gravity g e).rect = e.rect := by
  unfold with_gravity; split <;> rfl

theorem with_gravity_xvel (g : PyRat) (e : Entity) :
    (with_gravity g e).x_velocity = e.x_velocity := by
  unfold with_gravity; split <;> rfl

theorem move_y_state (e : Entity) (d : ℤ) : (move_y e d).state = e.state := rfl

theorem move_y_x (e : Entity) (d : ℤ) : (move_y e d).rect.x = e.rect.x := rfl

theorem move_y_w (e : Entity) (d : ℤ) : (move_y e d).rect.w = e.rect.w := rfl

theorem move_y_xvel (e : Entity) (d : ℤ) : (move_y e d).x_velocity = e.x_velocity := rfl

theorem move_x_state (e : Entity) (d : ℤ) : (move_x e d).state = e.state := rfl

theorem move_x_x (e : Entity) (d : ℤ) : (move_x e d).rect.x = e.rect.x + d := rfl

theorem move_x_w (e : Entity) (d : ℤ) : (move_x e d).rect.w = e.rect.w := rfl

theorem move_x_xvel (e : Entity) (d : ℤ) : (move_x e d).x_velocity = e.x_velocity := rfl

theorem handle_x_step_state (e : Entity) (b : Block) : (handle_x_step e b).state = e.state := by
  simp only [handle_x_step]
  split_ifs <;> rfl

theorem foldl_handle_x_state : ∀ (l : List Block) (e : Entity),
    (l.foldl handle_x_step e).state = e.state
  | [], _ => rfl
  | b :: t, e => by
    rw [List.foldl_cons, foldl_handle_x_state t, handle_x_step_state]

theorem handle_x_state (e : Entity) (m : GameMap) :
    (PhysicsComponent.handle_x_collisions e m).state = e.state := by
  unfold PhysicsComponent.handle_x_collisions
  exact foldl_handle_x_state _ _

theorem boundary_state (e : Entity) (m : GameMap) :
    (PhysicsComponent.handle_map_boundary_collisions e m).state = e.state := by
  simp only [PhysicsComponent.handle_map_boundary_collisions]
  split_ifs <;> rfl

/-- After `handle_y_collisions`, if no landing contact occurred and the
resulting state is not HANGING or CLIMBING, the state was forced to JUMPING
(`isJumping` branch, `physics.py` lines 182-185). -/
theorem handle_y_jumping (e : Entity) (m : GameMap)
    (hl : (PhysicsComponent.handle_y_collisions e m).2 = false)
    (h1 : (PhysicsComponent.handle_y_collisions e m).1.state ≠ EntityState.CLIMBING)
    (h2 : (PhysicsComponent.handle_y_collisions e m).1.state ≠ EntityState.HANGING) :
    (PhysicsComponent.handle_y_collisions e m).1.state = EntityState.JUMPING := by
  simp only [PhysicsComponent.handle_y_collisions] at *
  set r := (m.collideable_terrain.filter (fun b => e.rect.colliderect b.rect)).foldl
    handle_y_step (e, false) with hr
  by_cases hc : (r.1.state ≠ EntityState.CLIMBING ∧ r.1.state ≠ EntityState.HANGING) ∧ r.2 = false
  · rw [if_pos hc]
  · rw [if_neg hc] at hl h1 h2
    exact absurd ⟨⟨h1, h2⟩, hl⟩ hc

/-- A full fixed sub-step with no landing contact and a final state other
than HANGING/CLIMBING ends in the JUMPING state. -/
theorem full_step_jumping (e : Entity) (m : GameMap)
    (hl : (PhysicsComponent.full_step e m).2 = false)
    (h1 : (PhysicsComponent.full_step e m).1.state ≠ EntityState.CLIMBING)
    (h2 : (PhysicsComponent.full_step e m).1.state ≠ EntityState.HANGING) :
    (PhysicsComponent.full_step e m).1.state = EntityState.JUMPING := by
  simp only [PhysicsComponent.full_step, handle_x_state, move_x_state] at *
  exact handle_y_jumping _ _ hl h1 h2

/-- Extension of `full_step_jumping` to the whole fixed sub-step loop. -/
theorem run_full_steps_jumping (m : GameMap) : ∀ (n : ℕ) (e : Entity), 1 ≤ n →
    (PhysicsComponent.run_full_steps n e m).2 = false →
    (PhysicsComponent.run_full_steps n e m).1.state ≠ EntityState.CLIMBING →
    (PhysicsComponent.run_full_steps n e m).1.state ≠ EntityState.HANGING →
    (PhysicsComponent.run_full_steps n e m).1.state = EntityState.JUMPING := by
  intro n
  induction n with
  | zero => intro e h; omega
  | succ k ih =>
    intro e _ hl h1 h2
    simp only [PhysicsComponent.run_full_steps] at hl h1 h2 ⊢
    cases k with
    | zero =>
      simp only [PhysicsComponent.run_full_steps, Bool.or_false] at hl h1 h2 ⊢
      exact full_step_jumping e m hl h1 h2
    | succ j =>
      rcases Bool.or_eq_false_iff.mp hl with ⟨_, hs⟩
      exact ih (PhysicsComponent.full_step e m).1 (by omega) hs h1 h2

/-- If the remainder sub-step ran vertical resolution with no landing
contact, the same JUMPING-forcing applies to it. -/
theorem remainder_step_jumping (rem : PyRat) (e : Entity) (m : GameMap)
    (hran : (PhysicsComponent.remainder_step rem e m).2.2 = true)
    (hl : (PhysicsComponent.remainder_step rem e m).2.1 = false)
    (h1 : (PhysicsComponent.remainder_step rem e m).1.state ≠ EntityState.CLIMBING)
    (h2 : (PhysicsComponent.remainder_step rem e m).1.state ≠ EntityState.HANGING) :
    (PhysicsComponent.remainder_step rem e m).1.state = EntityState.JUMPING := by
  simp only [PhysicsComponent.remainder_step] at *
  by_cases hdy : ((PyRat.ofInt (with_gravity ((GRAVITY.mul rem).mul (PyRat.ofInt 60)) e).y_velocity).mul rem).pyInt ≠ 0
  · simp only [if_pos hdy, handle_x_state, move_x_state] at *
    exact handle_y_jumping _ _ hl h1 h2
  · simp only [if_neg hdy] at hran
    cases hran

/-- If the remainder sub-step did not run vertical resolution, it leaves the
state unchanged. -/
theorem remainder_step_state (rem : PyRat) (e : Entity) (m : GameMap)
    (hran : (PhysicsComponent.remainder_step rem e m).2.2 = false) :
    (PhysicsComponent.remainder_step rem e m).1.state = e.state := by
  simp only [PhysicsComponent.remainder_step] at *
  by_cases hdy : ((PyRat.ofInt (with_gravity ((GRAVITY.mul rem).mul (PyRat.ofInt 60)) e).y_velocity).mul rem).pyInt ≠ 0
  · simp only [if_pos hdy] at hran
    cases hran
  · simp only [if_neg hdy, handle_x_state, move_x_state, move_y_state, with_gravity_state]

/-! ## Claim C2: the no-ground property -/

/-- C2 (amended): for every entity, map and elapsed time, if vertical
collision resolution ran at least once during the `PhysicsComponent.update`
tick, no landing (from-above) contact occurred, and the final state is not
HANGING or CLIMBING, then the final state is JUMPING.  (The claim as stated,
without the ran-at-least-once condition, is refuted by
`update_small_dt_no_landing_stays_idle`.) -/
theorem update_no_landing_ranY_forces_jumping (dt : PyRat) (e : Entity) (m : GameMap)
    (hran : (PhysicsComponent.update dt e m).ranY = true)
    (hland : (PhysicsComponent.update dt e m).landed = false)
    (hH : (PhysicsComponent.update dt e m).entity.state ≠ EntityState.HANGING)
    (hC : (PhysicsComponent.update dt e m).entity.state ≠ EntityState.CLIMBING) :
    (PhysicsComponent.update dt e m).entity.state = EntityState.JUMPING := by
  simp only [PhysicsComponent.update, boundary_state] at *
  rcases Bool.or_eq_false_iff.mp hland with ⟨hr2, hq1⟩
  by_cases hq : (PhysicsComponent.remainder_step (remainder_time dt)
      (PhysicsComponent.run_full_steps (num_full_steps dt) e m).1 m).2.2 = true
  · exact remainder_step_jumping _ _ _ hq hq1 hC hH
  · rw [Bool.not_eq_true] at hq
    have hst := remainder_step_state _ _ _ hq
    rw [hst] at hH hC ⊢
    have hn : 1 ≤ num_full_steps dt := by
      rcases Bool.or_eq_true_iff.mp hran with h | h
      · exact of_decide_eq_true h
      · rw [hq] at h
        cases h
    exact run_full_steps_jumping m _ _ hn hr2 hC hH

/-- C2 counterexample: with `dt = 1/120` an IDLE entity over empty terrain
has no landing contact and is not HANGING/CLIMBING, yet ends the tick IDLE,
not JUMPING — the truncated vertical displacement is 0, so vertical
resolution (the only place the JUMPING fallback lives) never runs. -/
theorem update_small_dt_no_landing_stays_idle :
    (PhysicsComponent.update c2_dt c2_entity c2_map).landed = false
    ∧ (PhysicsComponent.update c2_dt c2_entity c2_map).entity.state = EntityState.IDLE
    ∧ (PhysicsComponent.update c2_dt c2_entity c2_map).entity.state ≠ EntityState.JUMPING := by
  decide

/-- Witness for `update_no_landing_ranY_forces_jumping` at `dt = 1/60`. -/
theorem update_no_landing_ranY_forces_jumping_witness :
    (PhysicsComponent.update c2w_dt c2_entity c2_map).entity.state = EntityState.JUMPING :=
  update_no_landing_ranY_forces_jumping c2w_dt c2_entity c2_map
    (by decide) (by decide) (by decide) (by decide)

/-! ## Claim C3: the landing property -/

/-- C3 (amended): in the vertical resolution pass in which an entity lands
on a collideable block from above (overlapping it, bottom strictly past the
block's top but not its bottom, and not approaching from below), the pass
ends with vertical velocity 0, the entity's bottom snapped to the block's
top, a recorded landing contact, and a JUMPING entity transitioned to IDLE.
(The claim's "tick ends with vertical velocity 0" is refuted by
`landing_tick_end_velocity_nonzero`: the remainder sub-step re-accumulates
gravity without moving the entity.) -/
theorem handle_y_landing_from_above (e : Entity) (b : Block) (w : ℤ)
    (hcol : e.rect.overlaps b.rect)
    (ht : b.rect.top < e.rect.bottom) (hbb : e.rect.bottom < b.rect.bottom)
    (hnb : ¬(b.rect.top < e.rect.top ∧ e.rect.top < b.rect.bottom)) :
    (PhysicsComponent.handle_y_collisions e ⟨[b], w⟩).2 = true
    ∧ (PhysicsComponent.handle_y_collisions e ⟨[b], w⟩).1.y_velocity = 0
    ∧ (PhysicsComponent.handle_y_collisions e ⟨[b], w⟩).1.rect.bottom = b.rect.top
    ∧ (e.state = EntityState.JUMPING →
        (PhysicsComponent.handle_y_collisions e ⟨[b], w⟩).1.state = EntityState.IDLE) := by
  have hc : e.rect.colliderect b.rect = true := decide_eq_true hcol
  have hnb' : is_colliding_from_below e b = false := decide_eq_false hnb
  have ha' : is_colliding_from_above e b = true := decide_eq_true ⟨ht, hbb⟩
  simp only [PhysicsComponent.handle_y_collisions, List.filter_cons, List.filter_nil, hc,
    if_true, List.foldl_cons, List.foldl_nil, handle_y_step, hnb', ha', Bool.false_eq_true,
    if_false]
  by_cases hj : e.state = EntityState.JUMPING <;>
    simp [hj, Rect.set_bottom_bottom]

/-- C3 counterexample: with `dt = 1/40 = 1/60 + 1/120` an entity lands on the
block during the full sub-step (landing recorded, bottom snapped to the
block's top, JUMPING → IDLE), yet the tick ends with vertical velocity 30,
not 0: the remainder sub-step adds `int(60 * (1/120) * 60) = 30` of gravity
back while the truncated displacement `int(30 * 1/120) = 0` moves nothing. -/
theorem landing_tick_end_velocity_nonzero :
    (PhysicsComponent.update c3_dt c3_entity c3_map).landed = true
    ∧ (PhysicsComponent.update c3_dt c3_entity c3_map).entity.rect.bottom = c3_block.rect.top
    ∧ (PhysicsComponent.update c3_dt c3_entity c3_map).entity.state = EntityState.IDLE
    ∧ (PhysicsComponent.update c3_dt c3_entity c3_map).entity.y_velocity = 30
    ∧ (PhysicsComponent.update c3_dt c3_entity c3_map).entity.y_velocity ≠ 0 := by
  decide

/-- Witness for `handle_y_landing_from_above`: a JUMPING entity one pixel
into the block's top lands and is snapped. -/
theorem handle_y_landing_from_above_witness :
    (PhysicsComponent.handle_y_collisions c3w_entity ⟨[c3_block], 100⟩).2 = true
    ∧ (PhysicsComponent.handle_y_collisions c3w_entity ⟨[c3_block], 100⟩).1.y_velocity = 0
    ∧ (PhysicsComponent.handle_y_collisions c3w_entity ⟨[c3_block], 100⟩).1.rect.bottom
        = c3_block.rect.top
    ∧ (PhysicsComponent.handle_y_collisions c3w_entity ⟨[c3_block], 100⟩).1.state
        = EntityState.IDLE := by
  have h := handle_y_landing_from_above c3w_entity c3_block 100
    (by decide) (by decide) (by decide) (by decide)
  exact ⟨h.1, h.2.1, h.2.2.1, h.2.2.2 (by decide)⟩

/-! ## Claim C4: sub-step decomposition and refinement -/

/-- Modelled from the spec: the horizontal displacement from "processing
`dt` as a single step at the same precision", i.e. one truncated
velocity-times-time product. -/
def spec_single_step_x_displacement (v : ℤ) (dt : PyRat) : ℤ :=
  ((PyRat.ofInt v).mul dt).pyInt

/-- Modelled from the spec: the vertical displacement from processing `dt`
as a single step at the same precision, applying the code's scaled gravity
increment `int(GRAVITY * dt * 60)` once and then one truncated move. -/
def spec_single_step_y_displacement (v0 : ℤ) (dt : PyRat) : ℤ :=
  ((PyRat.ofInt (v0 + ((GRAVITY.mul dt).mul (PyRat.ofInt 60)).pyInt)).mul dt).pyInt

/-- The horizontal displacement the decomposed integrator produces over one
tick: the full sub-steps plus the remainder sub-step. -/
def decomposed_x_displacement (v : ℤ) (dt : PyRat) : ℤ :=
  (num_full_steps dt : ℤ) * ((PyRat.ofInt v).mul DISCRETE_TIMESTEP).pyInt
    + ((PyRat.ofInt v).mul (remainder_time dt)).pyInt

theorem DISCRETE_TIMESTEP_toRat : DISCRETE_TIMESTEP.toRat = 1 / 60 := by
  norm_num [PyRat.toRat, DISCRETE_TIMESTEP]

theorem DISCRETE_TIMESTEP_inv : DISCRETE_TIMESTEP.inv = PyRat.ofInt 60 := by
  simp [PyRat.inv, DISCRETE_TIMESTEP, PyRat.ofInt]

/-- The division feeding `num_full_steps` denotes `60 * dt`. -/
theorem div_disc_toRat (dt : PyRat) : (dt.div DISCRETE_TIMESTEP).toRat = 60 * dt.toRat := by
  rw [PyRat.div, DISCRETE_TIMESTEP_inv, PyRat.toRat_mul, PyRat.toRat_ofInt]
  push_cast
  ring

theorem div_disc_num (dt : PyRat) : (dt.div DISCRETE_TIMESTEP).num = dt.num * 60 := by
  rw [PyRat.div, DISCRETE_TIMESTEP_inv]
  rfl

/-- C4 decomposition, part (a): `num_full_steps` is `⌊60 dt⌋` and the
remainder is what is left, lying in `[0, 1/60)`. -/
theorem num_full_steps_remainder_decomposition (dt : PyRat) (hdt : 0 ≤ dt.num) :
    (num_full_steps dt : ℚ) * (1 / 60) + (remainder_time dt).toRat = dt.toRat
    ∧ 0 ≤ (remainder_time dt).toRat
    ∧ (remainder_time dt).toRat < 1 / 60 := by
  have hdtq : 0 ≤ dt.toRat := (dt.toRat_nonneg).mpr hdt
  have hnum : 0 ≤ (dt.div DISCRETE_TIMESTEP).num := by
    rw [div_disc_num]; omega
  have hfl : (dt.div DISCRETE_TIMESTEP).floor = ⌊(60 : ℚ) * dt.toRat⌋ := by
    rw [PyRat.floor_eq, div_disc_toRat]
  have hn : (num_full_steps dt : ℤ) = ⌊(60 : ℚ) * dt.toRat⌋ := by
    unfold num_full_steps
    rw [PyRat.pyInt_eq_floor _ hnum, div_disc_toRat]
    rw [Int.toNat_of_nonneg]
    exact Int.floor_nonneg.mpr (by linarith)
  have hrem : (remainder_time dt).toRat
      = dt.toRat - (⌊(60 : ℚ) * dt.toRat⌋ : ℚ) * (1 / 60) := by
    unfold remainder_time
    rw [PyRat.toRat_sub, PyRat.toRat_mul, PyRat.toRat_ofInt, hfl, DISCRETE_TIMESTEP_toRat]
  have hfle : (⌊(60 : ℚ) * dt.toRat⌋ : ℚ) ≤ 60 * dt.toRat := Int.floor_le _
  have hflt : (60 : ℚ) * dt.toRat < ⌊(60 : ℚ) * dt.toRat⌋ + 1 := Int.lt_floor_add_one _
  have hcast : (num_full_steps dt : ℚ) = ((num_full_steps dt : ℤ) : ℚ) := by push_cast; ring
  refine ⟨?_, ?_, ?_⟩
  · rw [hcast, hn, hrem]; ring
  · rw [hrem]; linarith
  · rw [hrem]; linarith

theorem PyRat.toRat_ofInt_mul (v : ℤ) (q : PyRat) :
    ((PyRat.ofInt v).mul q).toRat = (v : ℚ) * q.toRat := by
  rw [PyRat.toRat_mul, PyRat.toRat_ofInt]

/-- C4, analytic part: the decomposed horizontal displacement differs from
the single-step displacement by at most one pixel per truncation performed
(`num_full_steps + 1` truncations). -/
theorem decomposed_x_close_to_single (v : ℤ) (dt : PyRat) (hdt : 0 ≤ dt.num) :
    |decomposed_x_displacement v dt - spec_single_step_x_displacement v dt|
      ≤ (num_full_steps dt : ℤ) + 1 := by
  obtain ⟨hdec, hr0, hr1⟩ := num_full_steps_remainder_decomposition dt hdt
  set n : ℕ := num_full_steps dt with hn
  set a := (PyRat.ofInt v).mul DISCRETE_TIMESTEP with hA
  set b := (PyRat.ofInt v).mul (remainder_time dt) with hB
  set c := (PyRat.ofInt v).mul dt with hC
  have hat : a.toRat = (v : ℚ) * (1 / 60) := by
    rw [hA, PyRat.toRat_ofInt_mul, DISCRETE_TIMESTEP_toRat]
  have hbt : b.toRat = (v : ℚ) * (remainder_time dt).toRat := PyRat.toRat_ofInt_mul v _
  have hct : c.toRat = (v : ℚ) * dt.toRat := PyRat.toRat_ofInt_mul v _
  have hsum : (n : ℚ) * a.toRat + b.toRat = c.toRat := by
    rw [hat, hbt, hct, ← hdec]
    ring
  obtain ⟨ha1, ha2⟩ := a.pyInt_bounds
  obtain ⟨hb1, hb2⟩ := b.pyInt_bounds
  obtain ⟨hc1, hc2⟩ := c.pyInt_bounds
  have hnn : (0 : ℚ) ≤ (n : ℚ) := by positivity
  have hm1 : (n : ℚ) * (a.toRat - 1) ≤ (n : ℚ) * a.pyInt :=
    mul_le_mul_of_nonneg_left (le_of_lt ha1) hnn
  have hm2 : (n : ℚ) * (a.pyInt : ℚ) ≤ (n : ℚ) * (a.toRat + 1) :=
    mul_le_mul_of_nonneg_left (le_of_lt ha2) hnn
  have hlow : -((n : ℚ) + 2) < ((n : ℚ) * a.pyInt + b.pyInt) - c.pyInt := by nlinarith
  have hhigh : ((n : ℚ) * a.pyInt + b.pyInt) - c.pyInt < (n : ℚ) + 2 := by nlinarith
  have hval : decomposed_x_displacement v dt - spec_single_step_x_displacement v dt
      = (n : ℤ) * a.pyInt + b.pyInt - c.pyInt := by
    unfold decomposed_x_displacement spec_single_step_x_displacement
    rw [← hn, ← hA, ← hB, ← hC]
  have hlow' : -((n : ℤ) + 2) < (n : ℤ) * a.pyInt + b.pyInt - c.pyInt := by
    have hq : ((-((n : ℤ) + 2) : ℤ) : ℚ) < (((n : ℤ) * a.pyInt + b.pyInt - c.pyInt : ℤ) : ℚ) := by
      push_cast
      linarith
    exact_mod_cast hq
  have hhigh' : (n : ℤ) * a.pyInt + b.pyInt - c.pyInt < (n : ℤ) + 2 := by
    have hq : (((n : ℤ) * a.pyInt + b.pyInt - c.pyInt : ℤ) : ℚ) < (((n : ℤ) + 2 : ℤ) : ℚ) := by
      push_cast
      linarith
    exact_mod_cast hq
  rw [hval]
  rw [abs_le]
  omega

/-! Behaviour of the collision phases over an empty terrain list, used to
read the integrator's horizontal displacement off the code. -/

theorem handle_y_empty_rect (m : GameMap) (hm : m.collideable_terrain = []) (e : Entity) :
    (PhysicsComponent.handle_y_collisions e m).1.rect = e.rect := by
  simp only [PhysicsComponent.handle_y_collisions, hm, List.filter_nil, List.foldl_nil]
  split_ifs <;> rfl

theorem handle_y_empty_xvel (m : GameMap) (hm : m.collideable_terrain = []) (e : Entity) :
    (PhysicsComponent.handle_y_collisions e m).1.x_velocity = e.x_velocity := by
  simp only [PhysicsComponent.handle_y_collisions, hm, List.filter_nil, List.foldl_nil]
  split_ifs <;> rfl

theorem handle_x_empty (m : GameMap) (hm : m.collideable_terrain = []) (e : Entity) :
    PhysicsComponent.handle_x_collisions e m = e := by
  simp [PhysicsComponent.handle_x_collisions, hm]

theorem full_step_x (m : GameMap) (hm : m.collideable_terrain = []) (e : Entity) :
    (PhysicsComponent.full_step e m).1.rect.x
      = e.rect.x + ((PyRat.ofInt e.x_velocity).mul DISCRETE_TIMESTEP).pyInt := by
  simp only [PhysicsComponent.full_step, handle_x_empty m hm, move_x_x,
    handle_y_empty_xvel m hm, handle_y_empty_rect m hm, move_y_xvel, with_gravity_xvel,
    move_y_x, with_gravity_rect]

theorem full_step_xvel (m : GameMap) (hm : m.collideable_terrain = []) (e : Entity) :
    (PhysicsComponent.full_step e m).1.x_velocity = e.x_velocity := by
  simp only [PhysicsComponent.full_step, handle_x_empty m hm, move_x_xvel,
    handle_y_empty_xvel m hm, move_y_xvel, with_gravity_xvel]

theorem full_step_w (m : GameMap) (hm : m.collideable_terrain = []) (e : Entity) :
    (PhysicsComponent.full_step e m).1.rect.w = e.rect.w := by
  simp only [PhysicsComponent.full_step, handle_x_empty m hm, move_x_w,
    handle_y_empty_rect m hm, move_y_w, with_gravity_rect]

theorem run_full_steps_x (m : GameMap) (hm : m.collideable_terrain = []) :
    ∀ (n : ℕ) (e : Entity),
    (PhysicsComponent.run_full_steps n e m).1.rect.x
      = e.rect.x + (n : ℤ) * ((PyRat.ofInt e.x_velocity).mul DISCRETE_TIMESTEP).pyInt
    ∧ (PhysicsComponent.run_full_steps n e m).1.x_velocity = e.x_velocity
    ∧ (PhysicsComponent.run_full_steps n e m).1.rect.w = e.rect.w := by
  intro n
  induction n with
  | zero => intro e; simp [PhysicsComponent.run_full_steps]
  | succ k ih =>
    intro e
    obtain ⟨ihx, ihv, ihw⟩ := ih (PhysicsComponent.full_step e m).1
    simp only [PhysicsComponent.run_full_steps]
    rw [ihx, ihv, ihw, full_step_x m hm, full_step_xvel m hm, full_step_w m hm]
    refine ⟨?_, rfl, rfl⟩
    push_cast
    ring

theorem remainder_step_x (m : GameMap) (hm : m.collideable_terrain = [])
    (rem : PyRat) (e : Entity) :
    (PhysicsComponent.remainder_step rem e m).1.rect.x
      = e.rect.x + ((PyRat.ofInt e.x_velocity).mul rem).pyInt
    ∧ (PhysicsComponent.remainder_step rem e m).1.rect.w = e.rect.w := by
  simp only [PhysicsComponent.remainder_step]
  by_cases hdy : ((PyRat.ofInt (with_gravity ((GRAVITY.mul rem).mul (PyRat.ofInt 60))
      e).y_velocity).mul rem).pyInt ≠ 0
  · simp only [if_pos hdy, handle_x_empty m hm, move_x_x, move_x_w,
      handle_y_empty_xvel m hm, handle_y_empty_rect m hm, move_y_xvel, with_gravity_xvel,
      move_y_x, move_y_w, with_gravity_rect]
    simp
  · simp only [if_neg hdy, handle_x_empty m hm, move_x_x, move_x_w, move_y_xvel,
      with_gravity_xvel, move_y_x, move_y_w, with_gravity_rect]
    simp

theorem boundary_x (e : Entity) (m : GameMap) (h1 : 0 ≤ e.rect.x)
    (h2 : e.rect.x + e.rect.w ≤ m.width) :
    (PhysicsComponent.handle_map_boundary_collisions e m).rect.x = e.rect.x := by
  simp only [PhysicsComponent.handle_map_boundary_collisions, Rect.set_top, Rect.set_left,
    Rect.set_right, Rect.left, Rect.right, Rect.top]
  split_ifs <;> simp_all <;> omega

/-- C4 (amended): `update` decomposes `dt` into `⌊dt/(1/60)⌋` full sub-steps
plus a remainder in `[0, 1/60)`; over terrain-free ground and away from the
map boundary the code's total horizontal displacement is exactly the
decomposed sum, which differs from the single-step displacement at the same
precision by at most `num_full_steps + 1` (one pixel per truncation); and a
single full sub-step never moves farther than the single step would, so
sub-stepping cannot tunnel worse.  (For gravity-affected vertical motion the
decomposition is a genuinely different integration, refuted by
`gravity_substeps_diverge_from_single_step`.) -/
theorem substep_decomposition_refinement (dt : PyRat) (e : Entity) (m : GameMap)
    (hdt : 0 ≤ dt.num) (hm : m.collideable_terrain = [])
    (h1 : 0 ≤ e.rect.x + decomposed_x_displacement e.x_velocity dt)
    (h2 : e.rect.x + decomposed_x_displacement e.x_velocity dt + e.rect.w ≤ m.width) :
    ((num_full_steps dt : ℚ) * (1 / 60) + (remainder_time dt).toRat = dt.toRat
      ∧ 0 ≤ (remainder_time dt).toRat ∧ (remainder_time dt).toRat < 1 / 60)
    ∧ (PhysicsComponent.update dt e m).entity.rect.x
        = e.rect.x + decomposed_x_displacement e.x_velocity dt
    ∧ |decomposed_x_displacement e.x_velocity dt
        - spec_single_step_x_displacement e.x_velocity dt|
        ≤ (num_full_steps dt : ℤ) + 1
    ∧ (1 ≤ num_full_steps dt → 0 ≤ e.x_velocity →
        ((PyRat.ofInt e.x_velocity).mul DISCRETE_TIMESTEP).pyInt
          ≤ spec_single_step_x_displacement e.x_velocity dt)
    ∧ (1 ≤ num_full_steps dt → e.x_velocity ≤ 0 →
        spec_single_step_x_displacement e.x_velocity dt
          ≤ ((PyRat.ofInt e.x_velocity).mul DISCRETE_TIMESTEP).pyInt) := by
  obtain ⟨hdec, hr0, hr1⟩ := num_full_steps_remainder_decomposition dt hdt
  have hdisc_le : 1 ≤ num_full_steps dt → DISCRETE_TIMESTEP.toRat ≤ dt.toRat := by
    intro hn
    rw [DISCRETE_TIMESTEP_toRat, ← hdec]
    have : (1 : ℚ) ≤ (num_full_steps dt : ℚ) := by exact_mod_cast hn
    nlinarith
  refine ⟨⟨hdec, hr0, hr1⟩, ?_, decomposed_x_close_to_single e.x_velocity dt hdt, ?_, ?_⟩
  · -- the code's displacement over empty terrain
    obtain ⟨hrx, hrv, hrw⟩ := run_full_steps_x m hm (num_full_steps dt) e
    obtain ⟨hqx, hqw⟩ :=
      remainder_step_x m hm (remainder_time dt)
        (PhysicsComponent.run_full_steps (num_full_steps dt) e m).1
    have hx : (PhysicsComponent.remainder_step (remainder_time dt)
        (PhysicsComponent.run_full_steps (num_full_steps dt) e m).1 m).1.rect.x
        = e.rect.x + decomposed_x_displacement e.x_velocity dt := by
      rw [hqx, hrv, hrx]
      unfold decomposed_x_displacement
      ring
    have hw : (PhysicsComponent.remainder_step (remainder_time dt)
        (PhysicsComponent.run_full_steps (num_full_steps dt) e m).1 m).1.rect.w
        = e.rect.w := by rw [hqw, hrw]
    simp only [PhysicsComponent.update]
    rw [boundary_x _ m (by rw [hx]; exact h1) (by rw [hx, hw]; exact h2), hx]
  · intro hn hv
    apply PyRat.pyInt_mono
    rw [PyRat.toRat_ofInt_mul, PyRat.toRat_ofInt_mul]
    have := hdisc_le hn
    have hv' : (0 : ℚ) ≤ (e.x_velocity : ℚ) := by exact_mod_cast hv
    nlinarith
  · intro hn hv
    apply PyRat.pyInt_mono
    rw [PyRat.toRat_ofInt_mul, PyRat.toRat_ofInt_mul]
    have := hdisc_le hn
    have hv' : (e.x_velocity : ℚ) ≤ 0 := by exact_mod_cast hv
    nlinarith

/-- C4 counterexample: for gravity-affected vertical motion with `dt = 10/60`
the decomposed integrator moves the entity 55 pixels while the single-step
displacement at the same precision is 100 pixels — a gap of 45, far beyond
one pixel per truncation performed (the decomposition does at most
`2 * num_full_steps + 2 = 22` truncations), so sub-stepping is a genuinely
different integration for the gravity axis, not equal within
integer-truncation rounding. -/
theorem gravity_substeps_diverge_from_single_step :
    (PhysicsComponent.update c4_dt c4_entity c4_map).entity.rect.y = 55
    ∧ spec_single_step_y_displacement 0 c4_dt = 100
    ∧ num_full_steps c4_dt = 10
    ∧ (100 - 55 : ℤ) > 2 * (num_full_steps c4_dt : ℤ) + 2 := by
  decide

/-- Witness for `substep_decomposition_refinement` at `dt = 1/40`,
`x_velocity = 100`. -/
theorem substep_decomposition_refinement_witness :
    (PhysicsComponent.update c4w_dt c4w_entity c4_map).entity.rect.x
      = c4w_entity.rect.x + decomposed_x_displacement c4w_entity.x_velocity c4w_dt
    ∧ |decomposed_x_displacement c4w_entity.x_velocity c4w_dt
        - spec_single_step_x_displacement c4w_entity.x_velocity c4w_dt|
        ≤ (num_full_steps c4w_dt : ℤ) + 1
    ∧ ((PyRat.ofInt c4w_entity.x_velocity).mul DISCRETE_TIMESTEP).pyInt
        ≤ spec_single_step_x_displacement c4w_entity.x_velocity c4w_dt := by
  have h := substep_decomposition_refinement c4w_dt c4w_entity c4_map
    (by decide) (by decide) (by decide) (by decide)
  exact ⟨h.2.1, h.2.2.1, h.2.2.2.1 (by decide) (by decide)⟩

/-! ## Claim C1: the gateway trigger -/

/-- C1 (amended): `GatewayBlock.update` posts SWITCH_LEVEL exactly when the
player's box contains the gateway's center point (`collidepoint` semantics:
left/top edges inclusive, right/bottom exclusive) — not when the gateway's
box contains the player's center. -/
theorem gateway_switch_level_iff (gw : Block) (p : Entity) :
    GatewayBlock.update gw p = true ↔
      (p.rect.left ≤ gw.rect.centerx ∧ gw.rect.centerx < p.rect.right
       ∧ p.rect.top ≤ gw.rect.centery ∧ gw.rect.centery < p.rect.bottom) := by
  simp [GatewayBlock.update, Rect.collidepoint]

/-- C1 counterexample: a small player in the corner of a large gateway has
its center inside the gateway's box, yet no SWITCH_LEVEL event is posted
(the code tests the reversed containment). -/
theorem gateway_ignores_player_center :
    GatewayBlock.update c1_gateway c1_player = false
    ∧ (c1_gateway.rect.left ≤ c1_player.rect.centerx
       ∧ c1_player.rect.centerx < c1_gateway.rect.right
       ∧ c1_gateway.rect.top ≤ c1_player.rect.centery
       ∧ c1_player.rect.centery < c1_gateway.rect.bottom) := by
  decide

/-- Witness for `gateway_switch_level_iff`: a player box around the
gateway's center fires the event. -/
theorem gateway_switch_level_iff_witness :
    GatewayBlock.update c1_gateway c1w_player = true :=
  (gateway_switch_level_iff c1_gateway c1w_player).mpr (by decide)

/-! ## Claim C5: hazard passthrough -/

/-- C5 (amended): the player's horizontal resolution never moves the entity
because of hazardous blocks — over a terrain list consisting only of spikes
it is the identity.  (For enemies this fails: see
`enemy_handle_x_blocked_by_spike`.) -/
theorem player_handle_x_hazard_passthrough (e : Entity) (m : GameMap)
    (hs : ∀ b ∈ m.collideable_terrain, b.is_spike = true) :
    PhysicsComponent.handle_x_collisions e m = e := by
  unfold PhysicsComponent.handle_x_collisions
  have hs' : ∀ b ∈ m.collideable_terrain.filter (fun b => e.rect.colliderect b.rect),
      b.is_spike = true := fun b hb => hs b (List.mem_of_mem_filter hb)
  generalize m.collideable_terrain.filter (fun b => e.rect.colliderect b.rect) = l at hs'
  induction l generalizing e with
  | nil => rfl
  | cons b t ih =>
    rw [List.foldl_cons]
    have hb : b.is_spike = true := hs' b (List.mem_cons_self b t)
    have hstep : handle_x_step e b = e := by simp [handle_x_step, hb]
    rw [hstep]
    exact ih e fun x hx => hs' x (List.mem_cons_of_mem b hx)

/-- C5 counterexample: the enemy variant has no hazard check — an enemy
overlapping a spike from the left is snapped to the spike's left edge
(x moves from 25 to 20) and its direction is forced. -/
theorem enemy_handle_x_blocked_by_spike :
    c5_spike.is_spike = true
    ∧ (EnemyPhysicsComponent.handle_x_collisions c5_enemy c5_map).rect.x = 20
    ∧ c5_enemy.rect.x = 25
    ∧ (EnemyPhysicsComponent.handle_x_collisions c5_enemy c5_map).rect.x ≠ c5_enemy.rect.x := by
  decide

/-- Witness for `player_handle_x_hazard_passthrough` on a one-spike map. -/
theorem player_handle_x_hazard_passthrough_witness :
    PhysicsComponent.handle_x_collisions c5_enemy c5_map = c5_enemy :=
  player_handle_x_hazard_passthrough c5_enemy c5_map (by decide)

/-! ## Claim C6: map boundary clamp -/

/-- C6 (amended): after boundary resolution a negative left edge is exactly
0 and a negative top is exactly 0; the right edge is clamped to the map
width only when the left edge was not negative (`elif`).  (The unconditional
right-edge claim is refuted by `boundary_wide_entity_right_unclamped`.) -/
theorem boundary_clamp_cases (e : Entity) (m : GameMap) :
    (e.rect.left < 0 →
      (PhysicsComponent.handle_map_boundary_collisions e m).rect.left = 0)
    ∧ (e.rect.top < 0 →
      (PhysicsComponent.handle_map_boundary_collisions e m).rect.top = 0)
    ∧ (0 ≤ e.rect.left → e.rect.right > m.width →
      (PhysicsComponent.handle_map_boundary_collisions e m).rect.right = m.width) := by
  simp only [PhysicsComponent.handle_map_boundary_collisions, Rect.set_top, Rect.set_left,
    Rect.set_right, Rect.left, Rect.right, Rect.top]
  split_ifs <;> simp_all

/-- C6 counterexample: an entity wider than the map with `left = -5` and
`right = 105 > 100` ends boundary resolution with `right = 110 ≠ 100`: the
`elif` skips the right clamp once the left clamp fires. -/
theorem boundary_wide_entity_right_unclamped :
    c6_entity.rect.right > c6_map.width
    ∧ (PhysicsComponent.handle_map_boundary_collisions c6_entity c6_map).rect.left = 0
    ∧ (PhysicsComponent.handle_map_boundary_collisions c6_entity c6_map).rect.right = 110
    ∧ (PhysicsComponent.handle_map_boundary_collisions c6_entity c6_map).rect.right
        ≠ c6_map.width := by
  decide

/-- Witness for `boundary_clamp_cases`: a left/top clamp and, on a second
entity, a right clamp. -/
theorem boundary_clamp_cases_witness :
    (PhysicsComponent.handle_map_boundary_collisions c6w_entity c6_map).rect.left = 0
    ∧ (PhysicsComponent.handle_map_boundary_collisions c6w_entity c6_map).rect.top = 0
    ∧ (PhysicsComponent.handle_map_boundary_collisions c6w_entity' c6_map).rect.right
        = c6_map.width :=
  ⟨(boundary_clamp_cases c6w_entity c6_map).1 (by decide),
   (boundary_clamp_cases c6w_entity c6_map).2.1 (by decide),
   (boundary_clamp_cases c6w_entity' c6_map).2.2 (by decide) (by decide)⟩

/-! ## Claim C7: the moving block -/

/-- C7 (amended): while the contact condition holds and the player is not
HANGING/CLIMBING, the block shifts horizontally by its own `vel` in the
player's facing direction and the player's x is then assigned the block's x
(alignment, not velocity mirroring — see
`moving_block_not_velocity_mirroring`); raw Up key state (elif Down) shifts
the block vertically by `vel` with the player's bottom pinned to its top. -/
theorem moving_block_shifts_and_drags (mb : MovingBlock) (p : Entity) (k : Keys)
    (hcond : mb.rect.top = p.rect.bottom
      ∧ (mb.rect.left < p.rect.left ∧ p.rect.left < mb.rect.right
         ∨ mb.rect.left < p.rect.right ∧ p.rect.right < mb.rect.right))
    (hstate : p.state ≠ EntityState.HANGING ∧ p.state ≠ EntityState.CLIMBING) :
    (p.direction = Direction.LEFT →
      (MovingBlock.update mb p k).1.rect.x = mb.rect.x - mb.vel
      ∧ (MovingBlock.update mb p k).2.rect.x = (MovingBlock.update mb p k).1.rect.x)
    ∧ (p.direction = Direction.RIGHT →
      (MovingBlock.update mb p k).1.rect.x = mb.rect.x + mb.vel
      ∧ (MovingBlock.update mb p k).2.rect.x = (MovingBlock.update mb p k).1.rect.x)
    ∧ (k.up = true →
      (MovingBlock.update mb p k).1.rect.y = mb.rect.y - mb.vel
      ∧ (MovingBlock.update mb p k).2.rect.bottom = (MovingBlock.update mb p k).1.rect.top)
    ∧ (k.up = false → k.down = true →
      (MovingBlock.update mb p k).1.rect.y = mb.rect.y + mb.vel
      ∧ (MovingBlock.update mb p k).2.rect.bottom = (MovingBlock.update mb p k).1.rect.top) := by
  unfold MovingBlock.update
  rw [if_pos ⟨hcond, hstate⟩]
  cases hdir : p.direction <;> cases hup : k.up <;> cases hdn : k.down <;>
    simp [hdir, hup, hdn, Rect.set_bottom, Rect.top, Rect.bottom]

/-- C7 counterexample: with the contact condition satisfied, player facing
RIGHT with `x_velocity = 180`, the block moves +1 pixel while the player is
displaced −9 pixels (its x is overwritten with the block's x) — the block
neither mirrors the player's horizontal velocity nor moves identically to
the player. -/
theorem moving_block_not_velocity_mirroring :
    (MovingBlock.update c7_block c7_player c7_keys).1.rect.x - c7_block.rect.x = 1
    ∧ (MovingBlock.update c7_block c7_player c7_keys).2.rect.x - c7_player.rect.x = -9
    ∧ c7_player.direction = Direction.RIGHT
    ∧ c7_player.x_velocity = 180 := by
  decide

/-- Witness for `moving_block_shifts_and_drags` with the Up key held. -/
theorem moving_block_shifts_and_drags_witness :
    ((MovingBlock.update c7_block c7_player c7w_keys).1.rect.x
        = c7_block.rect.x + c7_block.vel
      ∧ (MovingBlock.update c7_block c7_player c7w_keys).2.rect.x
        = (MovingBlock.update c7_block c7_player c7w_keys).1.rect.x)
    ∧ ((MovingBlock.update c7_block c7_player c7w_keys).1.rect.y
        = c7_block.rect.y - c7_block.vel
      ∧ (MovingBlock.update c7_block c7_player c7w_keys).2.rect.bottom
        = (MovingBlock.update c7_block c7_player c7w_keys).1.rect.top) := by
  have h := moving_block_shifts_and_drags c7_block c7_player c7w_keys
    (by decide) (by decide)
  exact ⟨h.2.1 (by decide), h.2.2.1 (by decide)⟩

/-! ## Claim C8: simultaneous Left and Right -/

/-- C8: when both direction keys are held, the Left branch runs before the
Right branch, so in both the IDLE and WALKING handlers the final direction
is RIGHT with horizontal velocity +180. -/
theorem both_direction_keys_right_wins (e : Entity) (k : Keys)
    (hl : k.left = true) (hr : k.right = true) :
    ((UserControlComponent.handle_idle_entity e k).direction = Direction.RIGHT
      ∧ (UserControlComponent.handle_idle_entity e k).x_velocity = 180)
    ∧ ((UserControlComponent.handle_walking_entity e k).direction = Direction.RIGHT
      ∧ (UserControlComponent.handle_walking_entity e k).x_velocity = 180) := by
  cases hs : k.space <;>
    simp [UserControlComponent.handle_idle_entity, UserControlComponent.handle_walking_entity,
      hl, hr, hs, WALK_RIGHT_VELOCITY]

/-- Witness for `both_direction_keys_right_wins`. -/
theorem both_direction_keys_right_wins_witness :
    (UserControlComponent.handle_idle_entity c8_entity c8_keys).direction = Direction.RIGHT
    ∧ (UserControlComponent.handle_walking_entity c8_entity c8_keys).x_velocity = 180 :=
  ⟨(both_direction_keys_right_wins c8_entity c8_keys (by decide) (by decide)).1.1,
   (both_direction_keys_right_wins c8_entity c8_keys (by decide) (by decide)).2.2⟩

/-! ## Claim C9: tile-code lookup -/

theorem lookup_mem (a b : String) :
    ∀ (l : List (String × String)), l.lookup a = some b → (a, b) ∈ l
  | [], h => by simp [List.lookup] at h
  | (k, v) :: t, h => by
    simp only [List.lookup] at h
    cases hk : a == k with
    | true =>
      rw [hk] at h
      simp only at h
      have hv : v = b := Option.some.inj h
      have ha : a = k := eq_of_beq hk
      subst hv; subst ha
      exact List.mem_cons_self _ _
    | false =>
      rw [hk] at h
      simp only at h
      exact List.mem_cons_of_mem _ (lookup_mem a b t h)

/-- C9: `get_texture_from_code` fails (raises, modelled as `none`) exactly
on codes missing from the code table, and for every code in the table it
returns the shared `TerrainType` entry registered under the mapped name
(every name in the code table is present in `textures`). -/
theorem texture_lookup_table (code : String) :
    (code_to_texture_dictionary.lookup code = none →
      TextureSet.get_texture_from_code code = none)
    ∧ (∀ name, code_to_texture_dictionary.lookup code = some name →
        TextureSet.get_texture_from_code code = textures.lookup name
        ∧ (TextureSet.get_texture_from_code code).isSome = true) := by
  constructor
  · intro h
    simp [TextureSet.get_texture_from_code, h]
  · intro name h
    have h1 : TextureSet.get_texture_from_code code = textures.lookup name := by
      simp [TextureSet.get_texture_from_code, h]
    refine ⟨h1, ?_⟩
    rw [h1]
    have hmem : (code, name) ∈ code_to_texture_dictionary := lookup_mem code name _ h
    have hall : ∀ p ∈ code_to_texture_dictionary, (textures.lookup p.2).isSome = true := by
      decide
    exact hall (code, name) hmem

/-- Witness for `texture_lookup_table` at the floor code and at an unknown
code. -/
theorem texture_lookup_table_witness :
    TextureSet.get_texture_from_code "f1" = textures.lookup "FLOOR"
    ∧ (TextureSet.get_texture_from_code "f1").isSome = true
    ∧ TextureSet.get_texture_from_code "zz" = none :=
  ⟨((texture_lookup_table "f1").2 "FLOOR" (by decide)).1,
   ((texture_lookup_table "f1").2 "FLOOR" (by decide)).2,
   (texture_lookup_table "zz").1 (by decide)⟩

/-! ## Claim C10: the spike block -/

/-- C10: after `SpikeBlock.update` the player never strictly overlaps the
spike (any overlap, from any side, is resolved by snapping the player's
bottom to the spike's top, leaving x untouched), and the LAND_ON_SPIKE
message is emitted exactly when a lateral edge of the (resolved) player lies
strictly inside the spike's horizontal extent while the player's bottom is
flush with the spike's top. -/
theorem spike_update_resolves_and_messages (s : Block) (p : Entity) :
    ¬ s.rect.overlaps (SpikeBlock.update s p).1.rect
    ∧ ((SpikeBlock.update s p).2 = true ↔
        ((s.rect.left < (SpikeBlock.update s p).1.rect.left
            ∧ (SpikeBlock.update s p).1.rect.left < s.rect.right
          ∨ s.rect.left < (SpikeBlock.update s p).1.rect.right
            ∧ (SpikeBlock.update s p).1.rect.right < s.rect.right)
          ∧ s.rect.top = (SpikeBlock.update s p).1.rect.bottom))
    ∧ (SpikeBlock.update s p).1.rect.x = p.rect.x
    ∧ (s.rect.overlaps p.rect → (SpikeBlock.update s p).1.rect.bottom = s.rect.top) := by
  by_cases h : s.rect.overlaps p.rect
  · have hc : s.rect.colliderect p.rect = true := decide_eq_true h
    simp only [SpikeBlock.update, hc, if_true]
    refine ⟨?_, by simp, rfl, fun _ => Rect.set_bottom_bottom _ _⟩
    intro hov
    have h3 := hov.2.2.1
    rw [Rect.set_bottom_bottom] at h3
    exact lt_irrefl _ h3
  · have hc : s.rect.colliderect p.rect = false := decide_eq_false h
    simp only [SpikeBlock.update, hc, Bool.false_eq_true, if_false]
    exact ⟨h, by simp, by trivial, fun hov => absurd hov h⟩

/-- Witness for `spike_update_resolves_and_messages`: a player overlapping
the spike laterally gets snapped and messaged. -/
theorem spike_update_resolves_and_messages_witness :
    ¬ c10_spike.rect.overlaps (SpikeBlock.update c10_spike c10_player).1.rect
    ∧ (SpikeBlock.update c10_spike c10_player).2 = true
    ∧ (SpikeBlock.update c10_spike c10_player).1.rect.bottom = c10_spike.rect.top := by
  have h := spike_update_resolves_and_messages c10_spike c10_player
  exact ⟨h.1, (h.2.1).mpr (by decide), h.2.2.2 (by decide)⟩
